import Mathlib

/-!
Verification of the scheduled report-export orchestrator.

The development shallowly embeds the orchestrator's core:
  * the Time-Window Calculator (`calculateTimeRange`, `createDateInTimezone`,
    `getCurrentDateTimePartsInTimezone`), over a proleptic-Gregorian calendar
    model (`daysFromCivil` / `civilFromDays`, the standard civil-from-days
    algorithms, modelling ECMAScript `Date.UTC` and
    `Intl.DateTimeFormat(...).formatToParts`) and an abstract timezone given by
    its UTC-offset function sampled at an instant;
  * the Export Sub-task Driver (`waitForSingleExportTask`,
    `driveSubTaskWithCreation`), with the collaborators (sub-task creation and
    terminal-status waiting) supplied by an environment, and an explicit log of
    creator calls, back-off sleeps and the recreated sub-tasks' time windows;
  * the Execution Coordinator (`executeTask` with `createExecutionRecord`,
    `sendReportEmails`, `saveExecutionRecordSuccess`, `handleExecutionError`,
    `sendFailureNotification`), with every fallible collaborator call an
    explicit `Except` outcome in the environment, and persistence modelled as
    the list of saved record snapshots;
  * the Cron Registry (`scheduleTask`, `unscheduleTask` over an association
    list keyed by the job name, exactly the `scheduled-task-<id>-<tenant>`
    string the source builds);
  * the task updater (`disableTask`, `enableOrUpdateTask`), with the document
    store for one composite key modelled as an `Option` and the cron-expression
    generator an abstract function (its source file is not part of the core).

Machine integers are `Int`/`Nat`; instants are milliseconds since the Unix
epoch.  A timezone offset is well-formed when it is a whole number of seconds
(`offset t % 1000 = 0`), which every IANA timezone satisfies.
-/

/-- Days since 1970-01-01 of a proleptic-Gregorian civil date (Hinnant's
`days_from_civil`, the arithmetic underlying ECMAScript `Date.UTC`). -/
def daysFromCivil (y m d : Int) : Int :=
  let y' := if m ≤ 2 then y - 1 else y
  let era := y' / 400
  let yoe := y' - era * 400
  let doy := (153 * (if 2 < m then m - 3 else m + 9) + 2) / 5 + d - 1
  let doe := yoe * 365 + yoe / 4 - yoe / 100 + doy
  era * 146097 + doe - 719468

/-- Civil date of a day number (Hinnant's `civil_from_days`, the arithmetic
underlying ECMAScript date-field extraction). -/
def civilFromDays (z : Int) : Int × Int × Int :=
  let z' := z + 719468
  let era := z' / 146097
  let doe := z' - era * 146097
  let yoe := (doe - doe / 1460 + doe / 36524 - doe / 146096) / 365
  let y := yoe + era * 400
  let doy := doe - (365 * yoe + yoe / 4 - yoe / 100)
  let mp := (5 * doy + 2) / 153
  let d := doy - (153 * mp + 2) / 5 + 1
  let m := if mp < 10 then mp + 3 else mp - 9
  (if m ≤ 2 then y + 1 else y, m, d)

/-- Calendar fields as produced by `Intl.DateTimeFormat(...).formatToParts`:
year, month (1-12), day, hour, minute, second. -/
structure DateTimeParts where
  year : Int
  month : Int
  day : Int
  hour : Int
  minute : Int
  second : Int
deriving DecidableEq, Repr

/-- The instant (ms since epoch) whose UTC calendar fields are `p`; models
`Date.UTC(year, month - 1, day, hour, minute, second)`. -/
def utcMsOfParts (p : DateTimeParts) : Int :=
  daysFromCivil p.year p.month p.day * 86400000
    + p.hour * 3600000 + p.minute * 60000 + p.second * 1000

/-- The UTC calendar fields of an instant; models formatting an instant with a
UTC formatter (seconds precision, milliseconds truncated). -/
def partsOfMs (t : Int) : DateTimeParts :=
  let z := t / 86400000
  let tod := t % 86400000
  let c := civilFromDays z
  { year := c.1, month := c.2.1, day := c.2.2,
    hour := tod / 3600000, minute := tod % 3600000 / 60000, second := tod % 60000 / 1000 }

/-- A timezone, abstracted by its UTC offset (in ms, east positive) as a
function of the instant at which it is resolved. -/
structure Timezone where
  offset : Int → Int

/-- The `{ startTime, endTime }` pair returned by the Time-Window
Calculator. -/
structure TimeRange where
  startTime : Int
  endTime : Int
deriving DecidableEq, Repr

/-- `getCurrentDateTimePartsInTimezone`: format the current instant with a
formatter in the target timezone (source lines; the offset is resolved at the
current instant) and read back the calendar fields. -/
def getCurrentDateTimePartsInTimezone (tz : Timezone) (now : Int) : DateTimeParts :=
  partsOfMs (now + tz.offset now)

/-- `createDateInTimezone`: reconstruct the UTC instant of a wall-clock time in
the target timezone.  The source builds `Date.UTC` of the fields, formats that
instant in the target timezone, recomposes the formatted fields with
`Date.UTC`, takes the difference as the offset, and subtracts it. -/
def createDateInTimezone (year month day hour minute second : Int) (tz : Timezone) : Int :=
  let utcDate := utcMsOfParts ⟨year, month, day, hour, minute, second⟩
  let tzParts := partsOfMs (utcDate + tz.offset utcDate)
  let targetTzDate := utcMsOfParts tzParts
  let offsetMs := targetTzDate - utcDate
  utcDate - offsetMs

/-- JS `new Date(y, m-1, d)` followed by `setDate(getDate() + n)` and reading
the local fields back: pure civil-calendar day arithmetic. -/
def jsDateAddDays (y m d n : Int) : Int × Int × Int :=
  civilFromDays (daysFromCivil y m d + n)

/-- JS `new Date(y, m-1, d)` followed by `setMonth(getMonth() - 1)` and reading
the fields back: ECMAScript `MakeDay` semantics, so the day-of-month is kept
and an overflowing day rolls forward into the next month. -/
def jsDateMonthSub (y m d : Int) : Int × Int × Int :=
  let mIdx := m - 2
  let y' := y + mIdx / 12
  let m' := mIdx % 12 + 1
  civilFromDays (daysFromCivil y' m' 1 + (d - 1))

/-- `calculateTimeRange` (the Time-Window Calculator), translated from the
source: end of "today" at 23:59:59 in the timezone; start at 00:00:00 of the
day one day / seven days / one JS month before today, chosen by the
`frequency` switch whose `default` duplicates the daily rule. -/
def calculateTimeRange (frequency : String) (tz : Timezone) (now : Int) : TimeRange :=
  let nowP := getCurrentDateTimePartsInTimezone tz now
  let endTime := createDateInTimezone nowP.year nowP.month nowP.day 23 59 59 tz
  let startDay :=
    if frequency = "daily" then jsDateAddDays nowP.year nowP.month nowP.day (-1)
    else if frequency = "weekly" then jsDateAddDays nowP.year nowP.month nowP.day (-7)
    else if frequency = "monthly" then jsDateMonthSub nowP.year nowP.month nowP.day
    else jsDateAddDays nowP.year nowP.month nowP.day (-1)
  let startTime := createDateInTimezone startDay.1 startDay.2.1 startDay.2.2 0 0 0 tz
  { startTime := startTime, endTime := endTime }

/-- The window-start day in the spec's words: the day 1 day (daily), 7 days
(weekly) or one calendar month (monthly, with JS day-overflow normalization)
before today. -/
def specWindowStartDay (frequency : String) (y m d : Int) : Int × Int × Int :=
  if frequency = "weekly" then jsDateAddDays y m d (-7)
  else if frequency = "monthly" then jsDateMonthSub y m d
  else jsDateAddDays y m d (-1)

/-- The window in the spec's words, with the end at 23:59:59.000 of today:
both bounds are wall-clock instants converted to UTC by subtracting the offset
resolved at the target wall-clock instant. -/
def specTimeRange (frequency : String) (tz : Timezone) (now : Int) : TimeRange :=
  let today := partsOfMs (now + tz.offset now)
  let sd := specWindowStartDay frequency today.year today.month today.day
  let startWall := utcMsOfParts ⟨sd.1, sd.2.1, sd.2.2, 0, 0, 0⟩
  let endWall := utcMsOfParts ⟨today.year, today.month, today.day, 23, 59, 59⟩
  { startTime := startWall - tz.offset startWall,
    endTime := endWall - tz.offset endWall }

/-- The window exactly as claim C1 words it: the end at 23:59:59.999 of today
in the timezone. -/
def specTimeRange999 (frequency : String) (tz : Timezone) (now : Int) : TimeRange :=
  let today := partsOfMs (now + tz.offset now)
  let sd := specWindowStartDay frequency today.year today.month today.day
  let startWall := utcMsOfParts ⟨sd.1, sd.2.1, sd.2.2, 0, 0, 0⟩
  let endWall := utcMsOfParts ⟨today.year, today.month, today.day, 23, 59, 59⟩ + 999
  { startTime := startWall - tz.offset startWall,
    endTime := endWall - tz.offset endWall }

/-- A fixed-offset model of `Asia/Shanghai` (UTC+8), the default timezone. -/
def shanghaiTz : Timezone := ⟨fun _ => 28800000⟩

/-- `ExportTaskStatus` from the export-task schema. -/
inductive ExportTaskStatus
  | pending
  | processing
  | completed
  | failed
deriving DecidableEq, Repr

/-- The export sub-task entity, as the scheduler observes it. -/
structure ExportSubTask where
  status : ExportTaskStatus
  filePath : Option String
  errorMessage : Option String
deriving DecidableEq, Repr

/-- One successful export as collected by the scheduler:
`{ task, pageId, branchId? }`. -/
structure SuccessfulExport where
  task : ExportSubTask
  pageId : String
  branchId : Option String
deriving DecidableEq, Repr

/-- Environment of the Export Sub-task Driver.  `createResult n` is the
outcome of the n-th `createExportTask` call of one drive (`.error` models the
call throwing); `waitResult n` is the outcome of `waitForTaskCompletion` on the
n-th created sub-task (`.error` models a poll failure or the 10-minute
timeout); `clock n` is the current instant when the n-th creation happens;
`defaultTz` is the process-wide `DEFAULT_TIMEZONE`; `retryLimit` is
`EXPORT_RETRY_COUNT` (default 3). -/
structure SchedulerEnv where
  retryLimit : Nat
  defaultTz : Timezone
  clock : Nat → Int
  createResult : Nat → Except String Unit
  waitResult : Nat → Except String ExportSubTask

/-- Observable log of one drive: how many times the creator was called, the
back-off sleeps inserted, and for each recreated sub-task its creation index
and the freshly recomputed time window passed to the creator. -/
structure DriverLog where
  creatorCalls : Nat
  sleepsMs : List Nat
  retryWindows : List (Nat × TimeRange)
deriving DecidableEq, Repr

/-- The back-off before retry number `retryCount + 1`:
`Math.min(1000 * 2 ** retryCount, 10000)` ms. -/
def retryDelay (retryCount : Nat) : Nat := min (1000 * 2 ^ retryCount) 10000

/-- `waitForSingleExportTask`, translated from the source.  Wait for the
current sub-task; on `completed` with a file artifact return success; otherwise
(failed, or the wait threw) if retries remain, sleep the back-off, recompute
the window with `calculateTimeRange(task.frequency)` — without the timezone
argument, hence in the default timezone at the instant of the retry — recreate
the sub-task and recurse with `retryCount + 1`; a failing recreate, like an
exhausted retry budget, yields `none`.  The source duplicates the retry block
in its catch branch, mirrored here. -/
def waitForSingleExportTask (env : SchedulerEnv) (frequency pageId : String)
    (branchId : Option String) (createIdx retryCount : Nat) (log : DriverLog) :
    Option SuccessfulExport × DriverLog :=
  match env.waitResult createIdx with
  | .ok completedTask =>
    if completedTask.status = .completed ∧ completedTask.filePath ≠ none then
      (some ⟨completedTask, pageId, branchId⟩, log)
    else
      if h : retryCount < env.retryLimit then
        let window := calculateTimeRange frequency env.defaultTz (env.clock (createIdx + 1))
        let log' : DriverLog :=
          { creatorCalls := log.creatorCalls + 1,
            sleepsMs := log.sleepsMs ++ [retryDelay retryCount],
            retryWindows := log.retryWindows ++ [(createIdx + 1, window)] }
        match env.createResult (createIdx + 1) with
        | .ok _ => waitForSingleExportTask env frequency pageId branchId
            (createIdx + 1) (retryCount + 1) log'
        | .error _ => (none, log')
      else (none, log)
  | .error _ =>
    if h : retryCount < env.retryLimit then
      let window := calculateTimeRange frequency env.defaultTz (env.clock (createIdx + 1))
      let log' : DriverLog :=
        { creatorCalls := log.creatorCalls + 1,
          sleepsMs := log.sleepsMs ++ [retryDelay retryCount],
          retryWindows := log.retryWindows ++ [(createIdx + 1, window)] }
      match env.createResult (createIdx + 1) with
      | .ok _ => waitForSingleExportTask env frequency pageId branchId
          (createIdx + 1) (retryCount + 1) log'
      | .error _ => (none, log')
    else (none, log)
  termination_by env.retryLimit - retryCount

/-- One sub-task driven end to end: the initial creation performed by
`createExportTasksForPage` (whose catch turns a failing creation into an empty
result), then `waitForSingleExportTask` from `retryCount = 0`. -/
def driveSubTaskWithCreation (env : SchedulerEnv) (frequency pageId : String)
    (branchId : Option String) : Option SuccessfulExport × DriverLog :=
  let log0 : DriverLog := { creatorCalls := 1, sleepsMs := [], retryWindows := [] }
  match env.createResult 0 with
  | .error _ => (none, log0)
  | .ok _ => waitForSingleExportTask env frequency pageId branchId 0 0 log0

/-- A thrown JS error: message and stack. -/
structure JsError where
  message : String
  stack : String
deriving DecidableEq, Repr

/-- Execution-record status. -/
inductive RunStatus
  | success
  | failed
deriving DecidableEq, Repr

/-- Execution-record email status. -/
inductive EmailStatus
  | success
  | failed
  | not_sent
deriving DecidableEq, Repr

/-- An email attachment recorded on the execution record. -/
structure EmailAttachment where
  filename : String
  path : String
deriving DecidableEq, Repr

/-- Result of the Notification Aggregator
(`emailService.sendReportEmails`). -/
structure EmailSendResult where
  success : Bool
  error : Option String
  attachments : List EmailAttachment
deriving DecidableEq, Repr

/-- The scheduled-task document fields the coordinator reads. -/
structure ScheduledTask where
  id : String
  tenantId : String
  frequency : String
  timezone : Option String
  recipient : List String
  pageIds : List String
  branchIds : List String
  cronExpression : String
deriving DecidableEq, Repr

/-- The `TaskExecutionRecord` document. -/
structure TaskExecutionRecord where
  taskId : String
  tenantId : String
  status : RunStatus
  startTime : Int
  endTime : Option Int
  duration : Option Int
  errorMessage : Option String
  errorStack : Option String
  emailStatus : EmailStatus
  emailErrorMessage : Option String
  emailAttachments : List EmailAttachment
  recipients : List String
  totalExports : Nat
  successfulExports : Nat
deriving DecidableEq, Repr

/-- Environment of one `executeTask` run.  The fallible collaborator calls of
the source are explicit outcomes: `createRecordSave` is the initial record's
`save()`; `exportSuccesses`/`exportTotal` summarize
`createAndWaitForExportTasks` (which never throws: page-level failures are
caught and sub-task drives resolve to success-or-null); `midSave` is the
`save()` after `successfulExports` is updated; `emailSendOutcome` is
`emailService.sendReportEmails`; `finalSave` is the save inside
`saveExecutionRecordSuccess` (its errors are swallowed there);
`failureNotifyTransport` is the transport call inside
`sendFailureNotification`; `errorSave` is the save at the end of
`handleExecutionError` (errors swallowed). -/
structure CoordinatorEnv where
  startClock : Int
  endClock : Int
  createRecordSave : Except JsError Unit
  exportSuccesses : List SuccessfulExport
  exportTotal : Nat
  midSave : Except JsError Unit
  emailSendOutcome : Except JsError EmailSendResult
  finalSave : Except JsError Unit
  failureNotifyTransport : Except JsError Unit
  errorSave : Except JsError Unit

/-- `createExecutionRecord`: the optimistic initial record
(status `success`, `emailStatus` `not_sent`, zero counters). -/
def createExecutionRecord (task : ScheduledTask) (startTime : Int) : TaskExecutionRecord :=
  { taskId := task.id
    tenantId := task.tenantId
    status := RunStatus.success
    startTime := startTime
    endTime := none
    duration := none
    errorMessage := none
    errorStack := none
    emailStatus := EmailStatus.not_sent
    emailErrorMessage := none
    emailAttachments := []
    recipients := task.recipient
    totalExports := 0
    successfulExports := 0 }

/-- `sendFailureNotification` of the email service: the whole body, including
the transport call, is wrapped in try/catch whose catch only logs, so the
function resolves successfully whatever the transport does. -/
def sendFailureNotification (transport : Except JsError Unit) : Except JsError Unit :=
  match transport with
  | .ok _ => .ok ()
  | .error _ => .ok ()

/-- `sendReportEmails` of the scheduler: mutate the record's email fields and
report whether the Notification Aggregator was invoked.  No successes or no
recipients short-circuit to `not_sent`; otherwise the aggregator outcome sets
`success`/`failed`, and an aggregator exception is caught into `failed`. -/
def sendReportEmails (task : ScheduledTask) (successfulExports : List SuccessfulExport)
    (emailSendOutcome : Except JsError EmailSendResult)
    (record : TaskExecutionRecord) : TaskExecutionRecord × Bool :=
  if successfulExports.length = 0 then
    ({ record with emailStatus := EmailStatus.not_sent }, false)
  else if task.recipient.length = 0 then
    ({ record with emailStatus := EmailStatus.not_sent }, false)
  else
    match emailSendOutcome with
    | .ok emailResult =>
      if emailResult.success then
        ({ record with
            emailStatus := EmailStatus.success
            emailAttachments := emailResult.attachments }, true)
      else
        ({ record with
            emailStatus := EmailStatus.failed
            emailErrorMessage := emailResult.error }, true)
    | .error emailError =>
      ({ record with
          emailStatus := EmailStatus.failed
          emailErrorMessage := some emailError.message }, true)

/-- `saveExecutionRecordSuccess`: finalize as success and save, swallowing a
save failure (the snapshot list records what was persisted). -/
def saveExecutionRecordSuccess (record : TaskExecutionRecord) (env : CoordinatorEnv) :
    TaskExecutionRecord × List TaskExecutionRecord :=
  let r := { record with
    status := RunStatus.success
    endTime := some env.endClock
    duration := some (env.endClock - env.startClock) }
  match env.finalSave with
  | .ok _ => (r, [r])
  | .error _ => (r, [])

/-- `handleExecutionError`: with no record yet, only log; otherwise mark the
record failed with the error's message and stack, send the best-effort failure
notification when recipients exist (its own errors would set `emailStatus` to
`failed`, but `sendFailureNotification` never throws), and save, swallowing a
save failure. -/
def handleExecutionError (task : ScheduledTask) (record : Option TaskExecutionRecord)
    (env : CoordinatorEnv) (error : JsError) :
    Option TaskExecutionRecord × List TaskExecutionRecord :=
  match record with
  | none => (none, [])
  | some r =>
    let r1 := { r with
      status := RunStatus.failed
      endTime := some env.endClock
      duration := some (env.endClock - env.startClock)
      errorMessage := some error.message
      errorStack := some error.stack }
    let r2 :=
      if task.recipient.length ≠ 0 then
        match sendFailureNotification env.failureNotifyTransport with
        | .ok _ => { r1 with emailStatus := EmailStatus.success }
        | .error emailError =>
          { r1 with
            emailStatus := EmailStatus.failed
            emailErrorMessage := some emailError.message }
      else r1
    match env.errorSave with
    | .ok _ => (some r2, [r2])
    | .error _ => (some r2, [])

/-- Observable outcome of one `executeTask` call: final in-memory record,
persisted snapshots in order, the exception escaping `executeTask` (if any),
and whether the Notification Aggregator was invoked. -/
structure ExecOutcome where
  record : Option TaskExecutionRecord
  saves : List TaskExecutionRecord
  thrown : Option JsError
  aggregatorInvoked : Bool
deriving DecidableEq, Repr

/-- `executeTask`, translated from the source.  Create and save the record
(a failure there reaches the catch with a null record and is rethrown);
compute the window (pure, cannot throw; modelled in the time section); run the
exports (never throws); update `successfulExports` and save (a failure reaches
the catch with the live record); send the report emails (never throws);
finalize (never throws).  The catch runs `handleExecutionError` and then
`throw error` — the exception leaves `executeTask`. -/
def executeTask (task : ScheduledTask) (env : CoordinatorEnv) : ExecOutcome :=
  let record0 := createExecutionRecord task env.startClock
  match env.createRecordSave with
  | .error e =>
    let rs := handleExecutionError task none env e
    { record := rs.1
      saves := rs.2
      thrown := some e
      aggregatorInvoked := false }
  | .ok _ =>
    let r1 := { record0 with totalExports := env.exportTotal }
    let r2 := { r1 with successfulExports := env.exportSuccesses.length }
    match env.midSave with
    | .error e =>
      let rs := handleExecutionError task (some r2) env e
      { record := rs.1
        saves := [record0] ++ rs.2
        thrown := some e
        aggregatorInvoked := false }
    | .ok _ =>
      let ri := sendReportEmails task env.exportSuccesses env.emailSendOutcome r2
      let r4 := saveExecutionRecordSuccess ri.1 env
      { record := some r4.1
        saves := [record0, r2] ++ r4.2
        thrown := none
        aggregatorInvoked := ri.2 }

/-- What the Cron Registry's timer observes: `executeTask(task).catch(err =>
logger.error(...))` — a total function, its only effect on error a log
entry. -/
inductive CronCallbackResult
  | completed
  | loggedError (e : JsError)
deriving DecidableEq, Repr

/-- The callback `scheduleTask` installs on the cron job. -/
def cronTimerCallback (task : ScheduledTask) (env : CoordinatorEnv) : CronCallbackResult :=
  match (executeTask task env).thrown with
  | some e => .loggedError e
  | none => .completed

/-- A registered cron job's data. -/
structure CronJobInfo where
  cronExpression : String
  timezone : String
deriving DecidableEq, Repr

/-- The job name the source builds: `scheduled-task-<taskId>-<tenantId>`. -/
def jobNameFor (taskId tenantId : String) : String :=
  "scheduled-task-" ++ taskId ++ "-" ++ tenantId

/-- `schedulerRegistry.doesExist('cron', name)`. -/
def doesExist (reg : List (String × CronJobInfo)) (name : String) : Bool :=
  reg.any (fun kv => kv.1 = name)

/-- `schedulerRegistry.deleteCronJob(name)`. -/
def deleteCronJob (reg : List (String × CronJobInfo)) (name : String) :
    List (String × CronJobInfo) :=
  reg.filter (fun kv => kv.1 ≠ name)

/-- `schedulerRegistry.addCronJob(name, job)`: raw insertion. -/
def addCronJob (reg : List (String × CronJobInfo)) (name : String) (job : CronJobInfo) :
    List (String × CronJobInfo) :=
  (name, job) :: reg

/-- `scheduleTask`: delete an existing job for the key first, then register a
new cron job with the task's cron expression and timezone (default timezone
when the task has none). -/
def scheduleTask (reg : List (String × CronJobInfo)) (task : ScheduledTask)
    (defaultTimezone : String) : List (String × CronJobInfo) :=
  let jobName := jobNameFor task.id task.tenantId
  let reg' := if doesExist reg jobName then deleteCronJob reg jobName else reg
  addCronJob reg' jobName
    { cronExpression := task.cronExpression
      timezone := task.timezone.getD defaultTimezone }

/-- `unscheduleTask`: delete the job if present, otherwise do nothing. -/
def unscheduleTask (reg : List (String × CronJobInfo)) (taskId tenantId : String) :
    List (String × CronJobInfo) :=
  let jobName := jobNameFor taskId tenantId
  if doesExist reg jobName then deleteCronJob reg jobName else reg

/-- A registry mutation: one schedule or unschedule call. -/
inductive RegistryOp
  | schedule (task : ScheduledTask) (defaultTimezone : String)
  | unschedule (taskId tenantId : String)

/-- Apply one registry mutation. -/
def applyRegistryOp (reg : List (String × CronJobInfo)) : RegistryOp →
    List (String × CronJobInfo)
  | .schedule task defaultTimezone => scheduleTask reg task defaultTimezone
  | .unschedule taskId tenantId => unscheduleTask reg taskId tenantId

/-- The registry state reached from the empty registry by a call sequence. -/
def runRegistryOps (ops : List RegistryOp) : List (String × CronJobInfo) :=
  ops.foldl applyRegistryOp []

/-- Number of timers registered under one job name. -/
def timersFor (reg : List (String × CronJobInfo)) (name : String) : Nat :=
  reg.countP (fun kv => kv.1 = name)

/-- The `time` sub-document of a scheduled task: `{ time: "HH:MM" }`. -/
structure TimeConfig where
  time : String
deriving DecidableEq, Repr

/-- The full scheduled-task document as the updater writes it. -/
structure ScheduledTaskDoc where
  id : String
  tenantId : String
  enable : Bool
  frequency : String
  time : TimeConfig
  recipient : List String
  pageIds : List String
  branchIds : List String
  cronExpression : String
  created : Int
  updated : Int
deriving DecidableEq, Repr

/-- `CreateScheduledTaskDto` as consumed by `enableOrUpdateTask` (the enabling
path validates that frequency, time, recipient and pageIds are present). -/
structure CreateScheduledTaskDto where
  frequency : String
  time : TimeConfig
  recipient : List String
  pageIds : List String
  branchIds : Option (List String)
deriving DecidableEq, Repr

/-- `TaskUpdater.disableTask`: `findOneAndUpdate` on the composite key with
`$set { enable: false, updated }` and `$setOnInsert` of the placeholder
defaults, upserting.  `store` is the document currently under the key. -/
def disableTask (store : Option ScheduledTaskDoc) (taskId tenantId : String)
    (now : Int) : ScheduledTaskDoc :=
  match store with
  | some doc => { doc with enable := false, updated := now }
  | none =>
    { id := taskId
      tenantId := tenantId
      enable := false
      frequency := "daily"
      time := { time := "00:00" }
      recipient := []
      pageIds := []
      branchIds := []
      cronExpression := "0 0 0 * * *"
      created := now
      updated := now }

/-- `TaskUpdater.enableOrUpdateTask`: regenerate the cron expression from the
submitted frequency and time (`gen` abstracts `CronGenerator.generate`, whose
source file is outside the core), then upsert `$set` of the full configuration
(`branchIds` only when provided) with `$setOnInsert` of the identity fields. -/
def enableOrUpdateTask (gen : String → TimeConfig → String)
    (store : Option ScheduledTaskDoc) (taskId : String)
    (taskData : CreateScheduledTaskDto) (tenantId : String) (now : Int) : ScheduledTaskDoc :=
  let cronExpression := gen taskData.frequency taskData.time
  match store with
  | some doc =>
    { doc with
      enable := true
      frequency := taskData.frequency
      time := taskData.time
      recipient := taskData.recipient
      pageIds := taskData.pageIds
      branchIds := taskData.branchIds.getD doc.branchIds
      cronExpression := cronExpression
      updated := now }
  | none =>
    { id := taskId
      tenantId := tenantId
      enable := true
      frequency := taskData.frequency
      time := taskData.time
      recipient := taskData.recipient
      pageIds := taskData.pageIds
      branchIds := taskData.branchIds.getD []
      cronExpression := cronExpression
      created := now
      updated := now }

/-- A sub-task that completed with a file artifact. -/
def okTask : ExportSubTask := ⟨.completed, some "reports/a.pdf", none⟩

/-- A sub-task in terminal `failed` state. -/
def failTask : ExportSubTask := ⟨.failed, none, some "render failed"⟩

/-- A successful export of page `p1`. -/
def someExport : SuccessfulExport := ⟨okTask, "p1", none⟩

/-- Driver environment whose creator always succeeds and whose sub-tasks
always end `failed`. -/
def envAllFailed : SchedulerEnv :=
  { retryLimit := 3
    defaultTz := shanghaiTz
    clock := fun _ => 1749960000000
    createResult := fun _ => .ok ()
    waitResult := fun _ => .ok failTask }

/-- Driver environment whose first sub-task fails and whose retry completes
with a file. -/
def envOneRetry : SchedulerEnv :=
  { retryLimit := 3
    defaultTz := shanghaiTz
    clock := fun _ => 1749960000000
    createResult := fun _ => .ok ()
    waitResult := fun n => if n = 0 then .ok failTask else .ok okTask }

/-- The error a failing persistence call throws in the fixtures. -/
def err0 : JsError := ⟨"persistence unreachable", "at save"⟩

/-- The error a failing notification transport throws in the fixtures. -/
def errT : JsError := ⟨"smtp down", "at sendEmail"⟩

/-- A scheduled task with one recipient and one page. -/
def task0 : ScheduledTask :=
  { id := "report-task"
    tenantId := "T1"
    frequency := "daily"
    timezone := none
    recipient := ["ops@example.com"]
    pageIds := ["p1"]
    branchIds := []
    cronExpression := "0 0 9 * * *" }

/-- `task0` with an empty recipient list. -/
def taskNoRecipient : ScheduledTask := { task0 with recipient := [] }

/-- Coordinator environment whose initial record save throws. -/
def envCreateFails : CoordinatorEnv :=
  { startClock := 100
    endClock := 250
    createRecordSave := .error err0
    exportSuccesses := []
    exportTotal := 0
    midSave := .ok ()
    emailSendOutcome := .ok ⟨true, none, []⟩
    finalSave := .ok ()
    failureNotifyTransport := .ok ()
    errorSave := .ok () }

/-- Coordinator environment with one successful export whose mid-run record
save throws, and whose failure-notification transport also throws. -/
def envMidFails : CoordinatorEnv :=
  { startClock := 100
    endClock := 250
    createRecordSave := .ok ()
    exportSuccesses := [someExport]
    exportTotal := 2
    midSave := .error err0
    emailSendOutcome := .ok ⟨true, none, []⟩
    finalSave := .ok ()
    failureNotifyTransport := .error errT
    errorSave := .ok () }

/-- Coordinator environment of an entirely successful run. -/
def envAllOk : CoordinatorEnv :=
  { startClock := 100
    endClock := 250
    createRecordSave := .ok ()
    exportSuccesses := [someExport]
    exportTotal := 1
    midSave := .ok ()
    emailSendOutcome := .ok ⟨true, none, [⟨"report.pdf", "reports/a.pdf"⟩]⟩
    finalSave := .ok ()
    failureNotifyTransport := .ok ()
    errorSave := .ok () }

/-- The record `executeTask task0 envMidFails` ends (and persists) with. -/
def recordMidFails : TaskExecutionRecord :=
  { taskId := "report-task"
    tenantId := "T1"
    status := RunStatus.failed
    startTime := 100
    endTime := some 250
    duration := some 150
    errorMessage := some "persistence unreachable"
    errorStack := some "at save"
    emailStatus := EmailStatus.success
    emailErrorMessage := none
    emailAttachments := []
    recipients := ["ops@example.com"]
    totalExports := 2
    successfulExports := 1 }

/-- A constant cron-expression generator for the updater fixtures. -/
def gen0 : String → TimeConfig → String := fun _ _ => "0 0 9 * * *"

/-- A stored scheduled-task document whose cron expression is consistent with
its frequency and time under `gen0`. -/
def doc0 : ScheduledTaskDoc :=
  { id := "report-task"
    tenantId := "T1"
    enable := true
    frequency := "weekly"
    time := { time := "09:00" }
    recipient := ["ops@example.com"]
    pageIds := ["p1", "p2"]
    branchIds := ["b1"]
    cronExpression := "0 0 9 * * *"
    created := 1
    updated := 2 }

/-- Scheduling the same task twice in a row from the empty registry. -/
def opsTwice : List RegistryOp :=
  [RegistryOp.schedule task0 "Asia/Shanghai", RegistryOp.schedule task0 "Asia/Shanghai"]

theorem eraYear_cover : ∀ n : Nat, n ≤ 146096 →
    ∃ y, y ≤ 399 ∧ 365*y + y/4 - y/100 ≤ n ∧
      (n < 365*(y+1) + (y+1)/4 - (y+1)/100 ∨ y = 399) := by
  intro n
  induction n with
  | zero => intro _; exact ⟨0, by omega, by omega, Or.inl (by norm_num)⟩
  | succ k ih =>
    intro hle
    obtain ⟨y, hy399, hfy, hfy1⟩ := ih (by omega)
    by_cases hc : k + 1 < 365*(y+1) + (y+1)/4 - (y+1)/100
    · exact ⟨y, hy399, by omega, Or.inl hc⟩
    · by_cases h399 : y = 399
      · subst h399; exact ⟨399, le_refl _, by omega, Or.inr rfl⟩
      · rcases hfy1 with h | h
        · refine ⟨y + 1, by omega, by omega, ?_⟩
          by_cases hl : y + 1 = 399
          · exact Or.inr hl
          · exact Or.inl (by omega)
        · exact absurd h h399

set_option maxHeartbeats 8000000 in
theorem natMagic (n : Nat) (h : n ≤ 146096) :
    (n - n/1460 + n/36524 - n/146096)/365 ≤ 399 ∧
    365*((n - n/1460 + n/36524 - n/146096)/365) +
      ((n - n/1460 + n/36524 - n/146096)/365)/4 -
      ((n - n/1460 + n/36524 - n/146096)/365)/100 ≤ n ∧
    n - (365*((n - n/1460 + n/36524 - n/146096)/365) +
      ((n - n/1460 + n/36524 - n/146096)/365)/4 -
      ((n - n/1460 + n/36524 - n/146096)/365)/100) ≤ 365 := by
  obtain ⟨y, hy399, hfy, hfy1⟩ := eraYear_cover n h
  have hq : (n - n/1460 + n/36524 - n/146096)/365 = y := by
    interval_cases y <;> omega
  rw [hq]
  omega

theorem intMagic (doe : Int) (h0 : 0 ≤ doe) (h1 : doe ≤ 146096) :
    0 ≤ (doe - doe/1460 + doe/36524 - doe/146096)/365 ∧
    (doe - doe/1460 + doe/36524 - doe/146096)/365 ≤ 399 ∧
    365*((doe - doe/1460 + doe/36524 - doe/146096)/365) +
      ((doe - doe/1460 + doe/36524 - doe/146096)/365)/4 -
      ((doe - doe/1460 + doe/36524 - doe/146096)/365)/100 ≤ doe ∧
    doe - (365*((doe - doe/1460 + doe/36524 - doe/146096)/365) +
      ((doe - doe/1460 + doe/36524 - doe/146096)/365)/4 -
      ((doe - doe/1460 + doe/36524 - doe/146096)/365)/100) ≤ 365 := by
  obtain ⟨n, rfl⟩ : ∃ n : ℕ, doe = ↑n := ⟨doe.toNat, by omega⟩
  have e1 : ((n : ℤ)) / 1460 = ((n / 1460 : ℕ) : ℤ) := by norm_cast
  have e2 : ((n : ℤ)) / 36524 = ((n / 36524 : ℕ) : ℤ) := by norm_cast
  have e3 : ((n : ℤ)) / 146096 = ((n / 146096 : ℕ) : ℤ) := by norm_cast
  have e4 : ((n : ℤ)) - ↑n/1460 + ↑n/36524 - ↑n/146096
      = ((n - n/1460 + n/36524 - n/146096 : ℕ) : ℤ) := by
    rw [e1, e2, e3]; omega
  rw [e4]
  have e5 : ((n - n/1460 + n/36524 - n/146096 : ℕ) : ℤ) / 365
      = (((n - n/1460 + n/36524 - n/146096) / 365 : ℕ) : ℤ) := by norm_cast
  rw [e5]
  have e6 : (((n - n/1460 + n/36524 - n/146096) / 365 : ℕ) : ℤ) / 4
      = (((n - n/1460 + n/36524 - n/146096) / 365 / 4 : ℕ) : ℤ) := by norm_cast
  have e7 : (((n - n/1460 + n/36524 - n/146096) / 365 : ℕ) : ℤ) / 100
      = (((n - n/1460 + n/36524 - n/146096) / 365 / 100 : ℕ) : ℤ) := by norm_cast
  rw [e6, e7]
  have hm := natMagic n (by omega)
  omega

set_option maxHeartbeats 1000000 in
theorem dfc_cfd_core (z era doe yoe doy mp d m : Int)
    (hera : era = (z + 719468) / 146097)
    (hdoe : doe = z + 719468 - era * 146097)
    (hyoe : yoe = (doe - doe/1460 + doe/36524 - doe/146096)/365)
    (hdoy : doy = doe - (365*yoe + yoe/4 - yoe/100))
    (hmp : mp = (5*doy + 2)/153)
    (hd : d = doy - (153*mp + 2)/5 + 1)
    (hm : m = if mp < 10 then mp + 3 else mp - 9) :
    daysFromCivil (if m ≤ 2 then yoe + era * 400 + 1 else yoe + era * 400) m d = z := by
  have hmagic := intMagic doe (by omega) (by omega)
  rw [← hyoe] at hmagic
  have he : (yoe + era * 400) / 400 = era := by omega
  unfold daysFromCivil
  simp only
  split_ifs at hm ⊢ <;> subst hm <;>
    (try simp only [show ∀ x : Int, x + 3 - 3 = x from fun x => by ring,
      show ∀ x : Int, x - 9 + 9 = x from fun x => by ring,
      show ∀ a b : Int, a + b * 400 + 1 - 1 = a + b * 400 from fun a b => by ring]) <;>
    (try simp only [he]) <;>
    (try simp only [show ∀ a b : Int, a + b * 400 - b * 400 = a from fun a b => by ring]) <;>
    omega

set_option maxHeartbeats 1000000 in
theorem daysFromCivil_civilFromDays (z : Int) :
    daysFromCivil (civilFromDays z).1 (civilFromDays z).2.1 (civilFromDays z).2.2 = z :=
  dfc_cfd_core z _ _ _ _ _ _ _ rfl rfl rfl rfl rfl rfl rfl

theorem utcMsOfParts_partsOfMs (t : Int) (h : t % 1000 = 0) :
    utcMsOfParts (partsOfMs t) = t := by
  unfold utcMsOfParts partsOfMs
  simp only
  rw [daysFromCivil_civilFromDays]
  omega

theorem createDateInTimezone_eq (tz : Timezone) (hwf : ∀ t, tz.offset t % 1000 = 0)
    (year month day hour minute second : Int) :
    createDateInTimezone year month day hour minute second tz =
      utcMsOfParts ⟨year, month, day, hour, minute, second⟩
        - tz.offset (utcMsOfParts ⟨year, month, day, hour, minute, second⟩) := by
  unfold createDateInTimezone
  simp only
  rw [utcMsOfParts_partsOfMs]
  · ring
  · have h1 := hwf (utcMsOfParts ⟨year, month, day, hour, minute, second⟩)
    unfold utcMsOfParts at h1 ⊢
    simp only at h1 ⊢
    omega

theorem calculateTimeRange_eq_specTimeRange (tz : Timezone)
    (hwf : ∀ t, tz.offset t % 1000 = 0) (frequency : String) (now : Int) :
    calculateTimeRange frequency tz now = specTimeRange frequency tz now := by
  unfold calculateTimeRange specTimeRange specWindowStartDay getCurrentDateTimePartsInTimezone
  simp only
  rw [createDateInTimezone_eq tz hwf, createDateInTimezone_eq tz hwf]
  by_cases h1 : frequency = "daily" <;> by_cases h2 : frequency = "weekly" <;>
    by_cases h3 : frequency = "monthly" <;> simp [h1, h2, h3]

/-- C1 (amended): for every frequency in {daily, weekly, monthly} and every
timezone whose offset is a whole number of seconds, `calculateTimeRange`
returns end equal to 23:59:59.000 of the current calendar day in the target
timezone (the source reconstructs the end at seconds precision, so the
milliseconds are zero, not 999), and start equal to 00:00:00.000 of the day
that is 1 day (daily), 7 days (weekly), or one calendar month (monthly, with
the day-of-month kept and an overflowing day rolled into the next month, JS
`setMonth` semantics) before that day, both converted to UTC using the offset
resolved at the target calendar wall-clock instant in that timezone. -/
theorem calculateTimeRange_follows_spec_window (tz : Timezone)
    (hwf : ∀ t, tz.offset t % 1000 = 0) (frequency : String)
    (hfreq : frequency = "daily" ∨ frequency = "weekly" ∨ frequency = "monthly")
    (now : Int) :
    calculateTimeRange frequency tz now = specTimeRange frequency tz now :=
  calculateTimeRange_eq_specTimeRange tz hwf frequency now

/-- C1 counterexample: at 2025-06-15T04:00:00Z under the fixed UTC+8 timezone,
the computed window differs from the claim's 23:59:59.999 version: the code's
end is 23:59:59.000 local. -/
theorem calculateTimeRange_end_ms_not_999 :
    calculateTimeRange "daily" shanghaiTz 1749960000000 ≠
      specTimeRange999 "daily" shanghaiTz 1749960000000 := by
  decide

/-- C1 witness. -/
theorem calculateTimeRange_follows_spec_window_witness :
    calculateTimeRange "daily" shanghaiTz 1749960000000 =
      specTimeRange "daily" shanghaiTz 1749960000000 :=
  calculateTimeRange_follows_spec_window shanghaiTz (fun _ => rfl) "daily"
    (Or.inl rfl) 1749960000000

/-- C8: for every frequency outside {daily, weekly, monthly},
`calculateTimeRange` returns exactly the window it returns for "daily" at the
same instant — the switch's default branch duplicates the daily rule — and,
being a total function, it raises no error. -/
theorem unknown_frequency_falls_back_to_daily (frequency : String)
    (h1 : frequency ≠ "daily") (h2 : frequency ≠ "weekly") (h3 : frequency ≠ "monthly")
    (tz : Timezone) (now : Int) :
    calculateTimeRange frequency tz now = calculateTimeRange "daily" tz now := by
  unfold calculateTimeRange
  simp [h1, h2, h3]

/-- C8 witness. -/
theorem unknown_frequency_falls_back_to_daily_witness :
    calculateTimeRange "hourly" shanghaiTz 1749960000000 =
      calculateTimeRange "daily" shanghaiTz 1749960000000 :=
  unknown_frequency_falls_back_to_daily "hourly" (by decide) (by decide) (by decide)
    shanghaiTz 1749960000000

/-- C2: with retry limit 3, a creator that always succeeds in creating a
sub-task, and sub-tasks that always end terminally failed, the driver calls
the creator exactly 4 times in total (the initial creation plus 3 retries),
returns null, and sleeps 1000, 2000, then 4000 ms — the back-off
min(1000·2^attempt, 10000) — before the retries, at least 7000 ms in total. -/
theorem runSubTask_retry_bound (env : SchedulerEnv) (frequency pageId : String)
    (branchId : Option String)
    (hR : env.retryLimit = 3)
    (hc : ∀ n, env.createResult n = .ok ())
    (hw : ∀ n, ∃ t, env.waitResult n = .ok t ∧ t.status = .failed) :
    (driveSubTaskWithCreation env frequency pageId branchId).1 = none ∧
    (driveSubTaskWithCreation env frequency pageId branchId).2.creatorCalls = 4 ∧
    (driveSubTaskWithCreation env frequency pageId branchId).2.sleepsMs =
      [retryDelay 0, retryDelay 1, retryDelay 2] ∧
    (driveSubTaskWithCreation env frequency pageId branchId).2.sleepsMs =
      [1000, 2000, 4000] ∧
    1000 + 2000 + 4000 ≤
      ((driveSubTaskWithCreation env frequency pageId branchId).2.sleepsMs).sum := by
  obtain ⟨t0, hw0, hs0⟩ := hw 0
  obtain ⟨t1, hw1, hs1⟩ := hw 1
  obtain ⟨t2, hw2, hs2⟩ := hw 2
  obtain ⟨t3, hw3, hs3⟩ := hw 3
  have hnc0 : ¬(t0.status = .completed ∧ t0.filePath ≠ none) := by simp [hs0]
  have hnc1 : ¬(t1.status = .completed ∧ t1.filePath ≠ none) := by simp [hs1]
  have hnc2 : ¬(t2.status = .completed ∧ t2.filePath ≠ none) := by simp [hs2]
  have hnc3 : ¬(t3.status = .completed ∧ t3.filePath ≠ none) := by simp [hs3]
  simp only [driveSubTaskWithCreation, hc 0]
  rw [waitForSingleExportTask]
  simp only [hw0, hR, hc, hnc0, if_neg, reduceDIte, retryDelay]
  rw [waitForSingleExportTask]
  simp only [hw1, hR, hc, hnc1, if_neg, reduceDIte, retryDelay]
  rw [waitForSingleExportTask]
  simp only [hw2, hR, hc, hnc2, if_neg, reduceDIte, retryDelay]
  rw [waitForSingleExportTask]
  simp only [hw3, hR, hc, hnc3, if_neg, reduceDIte, retryDelay]
  norm_num

/-- C2 witness. -/
theorem runSubTask_retry_bound_witness :
    (driveSubTaskWithCreation envAllFailed "daily" "p1" none).1 = none ∧
    (driveSubTaskWithCreation envAllFailed "daily" "p1" none).2.creatorCalls = 4 ∧
    (driveSubTaskWithCreation envAllFailed "daily" "p1" none).2.sleepsMs =
      [retryDelay 0, retryDelay 1, retryDelay 2] ∧
    (driveSubTaskWithCreation envAllFailed "daily" "p1" none).2.sleepsMs =
      [1000, 2000, 4000] ∧
    1000 + 2000 + 4000 ≤
      ((driveSubTaskWithCreation envAllFailed "daily" "p1" none).2.sleepsMs).sum :=
  runSubTask_retry_bound envAllFailed "daily" "p1" none rfl (fun _ => rfl)
    (fun _ => ⟨failTask, rfl, rfl⟩)

/-- C4: for every environment, page, branch and starting attempt, the driver
resolves to success-or-null: either `none`, or a successful export whose
sub-task is `completed` and carries a file artifact; no exception escapes (the
result type has no error case, and both collaborator-error branches are
handled inside). -/
theorem waitForSingleExportTask_success_or_null (env : SchedulerEnv)
    (frequency pageId : String) (branchId : Option String)
    (createIdx retryCount : Nat) (log : DriverLog) :
    (waitForSingleExportTask env frequency pageId branchId createIdx retryCount log).1 = none ∨
    ∃ s, (waitForSingleExportTask env frequency pageId branchId createIdx retryCount log).1 = some s ∧
      s.task.status = .completed ∧ s.task.filePath ≠ none := by
  induction createIdx, retryCount, log using waitForSingleExportTask.induct env frequency pageId branchId with
  | case1 createIdx retryCount log t hwr hcond =>
    right
    rw [waitForSingleExportTask]
    simp only [hwr, if_pos hcond]
    exact ⟨⟨t, pageId, branchId⟩, rfl, hcond.1, hcond.2⟩
  | case2 createIdx retryCount log t hwr hcond hlt window log' u hcr ih =>
    rw [waitForSingleExportTask]
    simp only [hwr, if_neg hcond, dif_pos hlt, hcr]
    exact ih
  | case3 createIdx retryCount log t hwr hcond hlt e hcr =>
    rw [waitForSingleExportTask]
    simp only [hwr, if_neg hcond, dif_pos hlt, hcr]
    left; trivial
  | case4 createIdx retryCount log t hwr hcond hnlt =>
    rw [waitForSingleExportTask]
    simp only [hwr, if_neg hcond, dif_neg hnlt]
    left; trivial
  | case5 createIdx retryCount log e hwr hlt window log' u hcr ih =>
    rw [waitForSingleExportTask]
    simp only [hwr, dif_pos hlt, hcr]
    exact ih
  | case6 createIdx retryCount log e hwr hlt e2 hcr =>
    rw [waitForSingleExportTask]
    simp only [hwr, dif_pos hlt, hcr]
    left; trivial
  | case7 createIdx retryCount log e hwr hnlt =>
    rw [waitForSingleExportTask]
    simp only [hwr, dif_neg hnlt]
    left; trivial

theorem waitForSingle_retryWindows (env : SchedulerEnv) (frequency pageId : String)
    (branchId : Option String) (createIdx retryCount : Nat) (log : DriverLog)
    (hlog : ∀ p ∈ log.retryWindows,
      p.2 = calculateTimeRange frequency env.defaultTz (env.clock p.1)) :
    ∀ p ∈ (waitForSingleExportTask env frequency pageId branchId createIdx retryCount log).2.retryWindows,
      p.2 = calculateTimeRange frequency env.defaultTz (env.clock p.1) := by
  induction createIdx, retryCount, log using waitForSingleExportTask.induct env frequency pageId branchId with
  | case1 createIdx retryCount log t hwr hcond =>
    rw [waitForSingleExportTask]
    simp only [hwr, if_pos hcond]
    exact hlog
  | case2 createIdx retryCount log t hwr hcond hlt window log' u hcr ih =>
    rw [waitForSingleExportTask]
    simp only [hwr, if_neg hcond, dif_pos hlt, hcr]
    refine ih ?_
    intro p hp
    rcases List.mem_append.mp hp with h | h
    · exact hlog p h
    · rcases List.mem_singleton.mp h with rfl
      rfl
  | case3 createIdx retryCount log t hwr hcond hlt e hcr =>
    rw [waitForSingleExportTask]
    simp only [hwr, if_neg hcond, dif_pos hlt, hcr]
    intro p hp
    rcases List.mem_append.mp hp with h | h
    · exact hlog p h
    · rcases List.mem_singleton.mp h with rfl
      rfl
  | case4 createIdx retryCount log t hwr hcond hnlt =>
    rw [waitForSingleExportTask]
    simp only [hwr, if_neg hcond, dif_neg hnlt]
    exact hlog
  | case5 createIdx retryCount log e hwr hlt window log' u hcr ih =>
    rw [waitForSingleExportTask]
    simp only [hwr, dif_pos hlt, hcr]
    refine ih ?_
    intro p hp
    rcases List.mem_append.mp hp with h | h
    · exact hlog p h
    · rcases List.mem_singleton.mp h with rfl
      rfl
  | case6 createIdx retryCount log e hwr hlt e2 hcr =>
    rw [waitForSingleExportTask]
    simp only [hwr, dif_pos hlt, hcr]
    intro p hp
    rcases List.mem_append.mp hp with h | h
    · exact hlog p h
    · rcases List.mem_singleton.mp h with rfl
      rfl
  | case7 createIdx retryCount log e hwr hnlt =>
    rw [waitForSingleExportTask]
    simp only [hwr, dif_neg hnlt]
    exact hlog

/-- C10: on every retry, the recreated sub-task's time window in the driver's
log equals `calculateTimeRange` of the task's frequency evaluated in the
process-wide default timezone (the retry code calls
`calculateTimeRange(task.frequency)` without the timezone argument) at the
environment's instant of that retry — so it ignores `task.timezone` and is
re-anchored to the retry instant rather than reusing the original run's
window. -/
theorem retry_recreation_uses_default_timezone_window (env : SchedulerEnv)
    (frequency pageId : String) (branchId : Option String) :
    ∀ p ∈ (driveSubTaskWithCreation env frequency pageId branchId).2.retryWindows,
      p.2 = calculateTimeRange frequency env.defaultTz (env.clock p.1) := by
  unfold driveSubTaskWithCreation
  simp only
  match hcr : env.createResult 0 with
  | .error e => simp
  | .ok u =>
    exact waitForSingle_retryWindows env frequency pageId branchId 0 0 _ (by simp)

/-- C10 witness: in `envOneRetry` the single retry's window is recomputed in
the default timezone at the retry instant. -/
theorem retry_recreation_uses_default_timezone_window_witness :
    (1, calculateTimeRange "daily" envOneRetry.defaultTz 1749960000000) ∈
      (driveSubTaskWithCreation envOneRetry "daily" "p1" none).2.retryWindows ∧
    (1, calculateTimeRange "daily" envOneRetry.defaultTz 1749960000000).2 =
      calculateTimeRange "daily" envOneRetry.defaultTz
        (envOneRetry.clock (1, calculateTimeRange "daily" envOneRetry.defaultTz 1749960000000).1) := by
  have hmem : (1, calculateTimeRange "daily" envOneRetry.defaultTz 1749960000000) ∈
      (driveSubTaskWithCreation envOneRetry "daily" "p1" none).2.retryWindows := by
    rw [driveSubTaskWithCreation]
    simp only [envOneRetry, failTask, okTask]
    rw [waitForSingleExportTask]
    norm_num [failTask]
    rw [waitForSingleExportTask]
    norm_num [okTask]
    simp
  exact ⟨hmem, retry_recreation_uses_default_timezone_window envOneRetry "daily" "p1" none
    (1, calculateTimeRange "daily" envOneRetry.defaultTz 1749960000000) hmem⟩

theorem sendFailureNotification_never_throws (tr : Except JsError Unit) :
    sendFailureNotification tr = .ok () := by
  cases tr <;> rfl

theorem executeTask_createSave_error (task : ScheduledTask) (env : CoordinatorEnv)
    (e : JsError) (h : env.createRecordSave = .error e) :
    executeTask task env =
      { record := none, saves := [], thrown := some e, aggregatorInvoked := false } := by
  unfold executeTask handleExecutionError
  rw [h]

theorem executeTask_midSave_error (task : ScheduledTask) (env : CoordinatorEnv)
    (e : JsError) (u : Unit) (h1 : env.createRecordSave = .ok u) (h2 : env.midSave = .error e) :
    executeTask task env =
      (let record0 := createExecutionRecord task env.startClock
       let r2 := { record0 with
         totalExports := env.exportTotal
         successfulExports := env.exportSuccesses.length }
       let r3 := { r2 with
         status := RunStatus.failed
         endTime := some env.endClock
         duration := some (env.endClock - env.startClock)
         errorMessage := some e.message
         errorStack := some e.stack }
       let r4 := if task.recipient.length ≠ 0 then
           { r3 with emailStatus := EmailStatus.success }
         else r3
       { record := some r4
         saves := [record0] ++ (match env.errorSave with | .ok _ => [r4] | .error _ => [])
         thrown := some e
         aggregatorInvoked := false }) := by
  unfold executeTask handleExecutionError
  rw [h1, h2, sendFailureNotification_never_throws]
  rcases hes : env.errorSave with e3 | u3 <;> rfl

theorem executeTask_no_throw (task : ScheduledTask) (env : CoordinatorEnv)
    (u1 u2 : Unit) (h1 : env.createRecordSave = .ok u1) (h2 : env.midSave = .ok u2) :
    executeTask task env =
      (let record0 := createExecutionRecord task env.startClock
       let r2 := { record0 with
         totalExports := env.exportTotal
         successfulExports := env.exportSuccesses.length }
       let ri := sendReportEmails task env.exportSuccesses env.emailSendOutcome r2
       let r4 := saveExecutionRecordSuccess ri.1 env
       { record := some r4.1
         saves := [record0, r2] ++ r4.2
         thrown := none
         aggregatorInvoked := ri.2 }) := by
  unfold executeTask
  rw [h1, h2]

theorem failedRun_email_success (task : ScheduledTask) (env : CoordinatorEnv)
    (e : JsError) (r : TaskExecutionRecord)
    (hrec : task.recipient ≠ [])
    (hthrown : (executeTask task env).thrown = some e)
    (hr : (executeTask task env).record = some r) :
    r.emailStatus = EmailStatus.success := by
  have hlen : ¬task.recipient.length = 0 := by
    simpa [List.length_eq_zero] using hrec
  unfold executeTask handleExecutionError at hthrown hr
  rcases hcs : env.createRecordSave with e1 | u1 <;>
    rw [hcs] at hthrown hr
  · simp at hr
  · rcases hms : env.midSave with e2 | u2 <;> rw [hms] at hthrown hr
    · rw [sendFailureNotification_never_throws] at hr
      simp only [if_pos hlen] at hr
      rcases hes : env.errorSave with e3 | u3 <;> rw [hes] at hr <;>
        simp at hr <;> rw [← hr]
    · simp at hthrown

/-- C3 (amended): on any uncaught exception during one run, `executeTask`
marks the execution record (when it was created) as failed with the error's
message and stack and best-effort persists it as the final snapshot — if the
exception occurred while creating the record, no record exists and nothing is
persisted — but the exception itself IS rethrown beyond `executeTask`; it is
the cron timer callback installed by the registry that catches it, so the
registry's caller only sees a logged error. -/
theorem executeTask_error_capture_rethrow_logged (task : ScheduledTask)
    (env : CoordinatorEnv) (e : JsError)
    (hthrown : (executeTask task env).thrown = some e) :
    cronTimerCallback task env = .loggedError e ∧
    (∀ r, (executeTask task env).record = some r →
      r.status = RunStatus.failed ∧ r.errorMessage = some e.message ∧
      r.errorStack = some e.stack ∧
      (env.errorSave = .ok () → (executeTask task env).saves.getLast? = some r)) ∧
    ((executeTask task env).record = none → (executeTask task env).saves = []) := by
  refine ⟨by simp [cronTimerCallback, hthrown], ?_, ?_⟩
  · intro r hr
    rcases hcs : env.createRecordSave with e1 | u1
    · rw [executeTask_createSave_error task env e1 hcs] at hthrown hr ⊢
      simp at hr
    · rcases hms : env.midSave with e2 | u2
      · rw [executeTask_midSave_error task env e2 u1 hcs hms] at hthrown hr ⊢
        simp only at hthrown hr ⊢
        obtain rfl : e2 = e := by simpa using hthrown
        obtain rfl := (Option.some_inj.mp hr).symm
        refine ⟨?_, ?_, ?_, ?_⟩
        · split_ifs <;> rfl
        · split_ifs <;> rfl
        · split_ifs <;> rfl
        · intro hes; rw [hes]; rfl
      · rw [executeTask_no_throw task env u1 u2 hcs hms] at hthrown
        simp at hthrown
  · intro hrec
    rcases hcs : env.createRecordSave with e1 | u1
    · rw [executeTask_createSave_error task env e1 hcs]
    · rcases hms : env.midSave with e2 | u2
      · rw [executeTask_midSave_error task env e2 u1 hcs hms] at hrec
        simp at hrec
      · rw [executeTask_no_throw task env u1 u2 hcs hms] at hrec
        simp at hrec

/-- C3 counterexample: when the initial record save throws, the exception
escapes `executeTask` (`thrown` is not `none`, refuting "the exception itself
is not propagated beyond executeTask"), no record exists and nothing is
persisted (refuting "sets the record's status to failed ... and persists the
record" for that run). -/
theorem executeTask_rethrows_on_create_failure :
    (executeTask task0 envCreateFails).thrown = some err0 ∧
    (executeTask task0 envCreateFails).record = none ∧
    (executeTask task0 envCreateFails).saves = [] := by
  decide

/-- C3 witness. -/
theorem executeTask_error_capture_rethrow_logged_witness :
    cronTimerCallback task0 envMidFails = CronCallbackResult.loggedError err0 ∧
    recordMidFails.status = RunStatus.failed ∧
    recordMidFails.errorMessage = some err0.message ∧
    recordMidFails.errorStack = some err0.stack ∧
    (executeTask task0 envMidFails).saves.getLast? = some recordMidFails := by
  have h := executeTask_error_capture_rethrow_logged task0 envMidFails err0 (by decide)
  have h2 := h.2.1 recordMidFails (by decide)
  exact ⟨h.1, h2.1, h2.2.1, h2.2.2.1, h2.2.2.2 rfl⟩

/-- C5 (amended): on a run that completes without an uncaught exception, the
coordinator invokes the Notification Aggregator if and only if the successful
exports and the recipient list are both non-empty, and in every other no-throw
case the finalized record has `emailStatus = not_sent`.  (On a run aborted by
an uncaught exception the aggregator is not invoked either, but a best-effort
failure notification may set `emailStatus` to `success` when recipients
exist.)  Any run of a task with `recipient = []` ends with
`emailStatus = not_sent` regardless of export outcomes. -/
theorem aggregator_invocation_email_policy (task : ScheduledTask) (env : CoordinatorEnv) :
    ((executeTask task env).thrown = none →
      ((executeTask task env).aggregatorInvoked = true ↔
        (env.exportSuccesses ≠ [] ∧ task.recipient ≠ []))) ∧
    ((executeTask task env).thrown = none →
      (env.exportSuccesses = [] ∨ task.recipient = []) →
      ∀ r, (executeTask task env).record = some r → r.emailStatus = EmailStatus.not_sent) ∧
    (task.recipient = [] → ∀ r, (executeTask task env).record = some r →
      r.emailStatus = EmailStatus.not_sent) := by
  rcases hcs : env.createRecordSave with e1 | u1
  · rw [executeTask_createSave_error task env e1 hcs]
    simp
  · rcases hms : env.midSave with e2 | u2
    · rw [executeTask_midSave_error task env e2 u1 hcs hms]
      refine ⟨by simp, by simp, ?_⟩
      intro hrec r hr
      simp only [hrec] at hr
      simp at hr
      rw [← hr]
      rfl
    · rw [executeTask_no_throw task env u1 u2 hcs hms]
      simp only [sendReportEmails, saveExecutionRecordSuccess]
      refine ⟨?_, ?_, ?_⟩
      · intro _
        rcases henv : env.exportSuccesses with _ | ⟨s, ss⟩ <;>
          rcases hr : task.recipient with _ | ⟨a, as⟩ <;>
            simp <;>
            rcases heo : env.emailSendOutcome with e4 | res <;> simp <;>
            rcases hsucc : res.success <;> simp
      · intro _ hcase r hr
        rcases hcase with hcase | hcase <;> simp only [hcase] at hr <;> simp at hr <;>
          rcases hfs : env.finalSave with e3 | u3 <;> simp [hfs] at hr <;> rw [← hr]
      · intro hcase r hr
        simp only [hcase] at hr
        simp at hr
        rcases henv : env.exportSuccesses with _ | ⟨s, ss⟩ <;> simp [henv] at hr <;>
          rcases hfs : env.finalSave with e3 | u3 <;> simp [hfs] at hr <;> rw [← hr]

/-- C5 counterexample: with one successful export, a non-empty recipient list
and a mid-run save failure, the aggregator is never invoked although both
lists are non-empty, and the finalized record's `emailStatus` is `success`
(the failure notification), not `not_sent` — refuting the claimed
if-and-only-if over every run. -/
theorem aggregator_iff_fails_on_midsave_error :
    (executeTask task0 envMidFails).aggregatorInvoked = false ∧
    envMidFails.exportSuccesses ≠ [] ∧
    task0.recipient ≠ [] ∧
    (executeTask task0 envMidFails).record = some recordMidFails ∧
    recordMidFails.emailStatus ≠ EmailStatus.not_sent := by
  decide

/-- C5 witness. -/
theorem aggregator_invocation_email_policy_witness :
    ((executeTask task0 envAllOk).aggregatorInvoked = true ↔
      (envAllOk.exportSuccesses ≠ [] ∧ task0.recipient ≠ [])) :=
  (aggregator_invocation_email_policy task0 envAllOk).1 (by decide)

/-- C9: `sendFailureNotification` swallows every error of its own (including a
failing transport) and resolves successfully, so the branch of
`handleExecutionError` that would set `emailStatus = failed` is unreachable:
every failed run of a task with a non-empty recipient list ends with the
record's `emailStatus = success`, even though no report attachments were
sent. -/
theorem failure_notification_never_throws_email_success :
    (∀ tr : Except JsError Unit, sendFailureNotification tr = .ok ()) ∧
    (∀ (task : ScheduledTask) (env : CoordinatorEnv) (e : JsError) (r : TaskExecutionRecord),
      task.recipient ≠ [] → (executeTask task env).thrown = some e →
      (executeTask task env).record = some r → r.emailStatus = EmailStatus.success) :=
  ⟨sendFailureNotification_never_throws,
   fun task env e r hrec hthrown hr => failedRun_email_success task env e r hrec hthrown hr⟩

/-- C9 witness: even with a failing transport, the failure notification
resolves and the failed run's record shows `emailStatus = success`. -/
theorem failure_notification_never_throws_email_success_witness :
    sendFailureNotification (Except.error errT) = Except.ok () ∧
    recordMidFails.emailStatus = EmailStatus.success :=
  ⟨failure_notification_never_throws_email_success.1 (Except.error errT),
   failure_notification_never_throws_email_success.2 task0 envMidFails err0 recordMidFails
     (by decide) (by decide) (by decide)⟩

theorem timersFor_deleteCronJob (reg : List (String × CronJobInfo)) (name n : String) :
    timersFor (deleteCronJob reg name) n ≤ if n = name then 0 else timersFor reg n := by
  unfold timersFor deleteCronJob
  split_ifs with h
  · subst h
    rw [Nat.le_zero, List.countP_eq_zero]
    intro kv hkv
    have := List.of_mem_filter hkv
    simpa using this
  · exact (List.filter_sublist reg).countP_le _

theorem timersFor_eq_zero_of_absent (reg : List (String × CronJobInfo)) (name : String)
    (h : doesExist reg name = false) : timersFor reg name = 0 := by
  induction reg with
  | nil => rfl
  | cons kv rest ih =>
    unfold doesExist at h ih
    unfold timersFor at ih ⊢
    rw [List.any_cons] at h
    rw [List.countP_cons]
    rcases Bool.or_eq_false_iff.mp h with ⟨h1, h2⟩
    rw [ih h2]
    simpa using h1

theorem timersFor_scheduleTask (reg : List (String × CronJobInfo))
    (task : ScheduledTask) (defaultTimezone : String) :
    timersFor (scheduleTask reg task defaultTimezone) (jobNameFor task.id task.tenantId) = 1 := by
  unfold scheduleTask addCronJob
  unfold timersFor
  rw [List.countP_cons]
  simp only [decide_eq_true_eq, if_pos, if_true]
  split_ifs with h
  · have hd := timersFor_deleteCronJob reg (jobNameFor task.id task.tenantId)
      (jobNameFor task.id task.tenantId)
    rw [if_pos rfl] at hd
    unfold timersFor at hd
    omega
  · have h0 := timersFor_eq_zero_of_absent reg (jobNameFor task.id task.tenantId)
      (Bool.not_eq_true _ ▸ eq_false_of_ne_true h)
    unfold timersFor at h0
    omega

theorem timersFor_scheduleTask_ne (reg : List (String × CronJobInfo))
    (task : ScheduledTask) (defaultTimezone : String) (n : String)
    (hn : n ≠ jobNameFor task.id task.tenantId) :
    timersFor (scheduleTask reg task defaultTimezone) n ≤ timersFor reg n := by
  unfold scheduleTask addCronJob
  unfold timersFor
  rw [List.countP_cons]
  have hne : ¬((jobNameFor task.id task.tenantId : String) = n) := fun h => hn h.symm
  simp only [decide_eq_true_eq, hne, if_false]
  split_ifs with h
  · have hd := timersFor_deleteCronJob reg (jobNameFor task.id task.tenantId) n
    rw [if_neg hn] at hd
    unfold timersFor at hd
    omega
  · omega

theorem timersFor_unscheduleTask_le (reg : List (String × CronJobInfo))
    (taskId tenantId : String) (n : String) :
    timersFor (unscheduleTask reg taskId tenantId) n ≤ timersFor reg n := by
  simp only [unscheduleTask]
  split_ifs with h
  · have hd := timersFor_deleteCronJob reg (jobNameFor taskId tenantId) n
    split_ifs at hd with h2
    · exact le_trans hd (Nat.zero_le _)
    · exact hd
  · exact le_refl _

theorem timersFor_le_one (ops : List RegistryOp) (n : String) :
    timersFor (runRegistryOps ops) n ≤ 1 := by
  suffices h : ∀ reg, (∀ m, timersFor reg m ≤ 1) →
      ∀ m, timersFor (List.foldl applyRegistryOp reg ops) m ≤ 1 by
    refine h [] (fun m => ?_) n
    unfold timersFor
    simp
  induction ops with
  | nil => intro reg hinv m; simpa using hinv m
  | cons op rest ih =>
    intro reg hinv m
    rw [List.foldl_cons]
    refine ih (applyRegistryOp reg op) ?_ m
    intro k
    cases op with
    | schedule task defaultTimezone =>
      by_cases hk : k = jobNameFor task.id task.tenantId
      · subst hk
        exact le_of_eq (timersFor_scheduleTask reg task defaultTimezone)
      · exact le_trans (timersFor_scheduleTask_ne reg task defaultTimezone k hk) (hinv k)
    | unschedule a b =>
      exact le_trans (timersFor_unscheduleTask_le reg a b k) (hinv k)

theorem unscheduleTask_absent (reg : List (String × CronJobInfo)) (taskId tenantId : String)
    (h : doesExist reg (jobNameFor taskId tenantId) = false) :
    unscheduleTask reg taskId tenantId = reg := by
  simp only [unscheduleTask]
  rw [h]
  simp

/-- C6: for every (taskId, tenantId) key, every state the registry reaches
from empty through schedule/unschedule calls holds at most one timer for the
key; scheduling a task twice in a row — from any registry state — leaves
exactly one timer for its key, because `scheduleTask` deletes an existing job
before inserting; and unscheduling an absent key leaves the registry
unchanged. -/
theorem cronRegistry_at_most_one_timer (ops : List RegistryOp) (taskId tenantId : String)
    (reg : List (String × CronJobInfo)) (task : ScheduledTask) (defaultTimezone : String)
    (a b : String) (habsent : doesExist reg (jobNameFor a b) = false) :
    timersFor (runRegistryOps ops) (jobNameFor taskId tenantId) ≤ 1 ∧
    timersFor (scheduleTask (scheduleTask reg task defaultTimezone) task defaultTimezone)
      (jobNameFor task.id task.tenantId) = 1 ∧
    unscheduleTask reg a b = reg :=
  ⟨timersFor_le_one ops _, timersFor_scheduleTask _ task defaultTimezone,
   unscheduleTask_absent reg a b habsent⟩

/-- C6 witness. -/
theorem cronRegistry_at_most_one_timer_witness :
    timersFor (runRegistryOps opsTwice) (jobNameFor "report-task" "T1") ≤ 1 ∧
    timersFor (scheduleTask (scheduleTask [] task0 "Asia/Shanghai") task0 "Asia/Shanghai")
      (jobNameFor task0.id task0.tenantId) = 1 ∧
    unscheduleTask [] "a" "b" = [] :=
  cronRegistry_at_most_one_timer opsTwice "report-task" "T1" [] task0 "Asia/Shanghai"
    "a" "b" rfl

/-- C7: disabling an existing task changes only the enable flag and the
updated timestamp — frequency, time, recipient, pageIds, branchIds,
cronExpression, identity and creation time are unchanged — so disabling and
then re-enabling with the stored (unchanged) configuration restores a task
whose configuration equals the pre-disable values, the cron expression being
regenerated and equal whenever it was consistent with (frequency, time);
disabling a task that does not yet exist creates a placeholder with safe
defaults (daily, 00:00, empty recipient/pageIds/branchIds, cron
expression "0 0 0 * * *"). -/
theorem disableTask_preserves_configuration (gen : String → TimeConfig → String)
    (doc : ScheduledTaskDoc) (taskId tenantId : String) (now1 now2 : Int) :
    (disableTask (some doc) taskId tenantId now1).enable = false ∧
    (disableTask (some doc) taskId tenantId now1).frequency = doc.frequency ∧
    (disableTask (some doc) taskId tenantId now1).time = doc.time ∧
    (disableTask (some doc) taskId tenantId now1).recipient = doc.recipient ∧
    (disableTask (some doc) taskId tenantId now1).pageIds = doc.pageIds ∧
    (disableTask (some doc) taskId tenantId now1).branchIds = doc.branchIds ∧
    (disableTask (some doc) taskId tenantId now1).cronExpression = doc.cronExpression ∧
    (disableTask (some doc) taskId tenantId now1).id = doc.id ∧
    (disableTask (some doc) taskId tenantId now1).tenantId = doc.tenantId ∧
    (disableTask (some doc) taskId tenantId now1).created = doc.created ∧
    (let d := disableTask (some doc) taskId tenantId now1
     let e := enableOrUpdateTask gen (some d) taskId
       { frequency := d.frequency
         time := d.time
         recipient := d.recipient
         pageIds := d.pageIds
         branchIds := some d.branchIds } tenantId now2
     e.enable = true ∧ e.frequency = doc.frequency ∧ e.time = doc.time ∧
       e.recipient = doc.recipient ∧ e.pageIds = doc.pageIds ∧
       e.branchIds = doc.branchIds ∧
       (doc.cronExpression = gen doc.frequency doc.time →
         e.cronExpression = doc.cronExpression)) ∧
    (disableTask none taskId tenantId now1 =
      { id := taskId
        tenantId := tenantId
        enable := false
        frequency := "daily"
        time := { time := "00:00" }
        recipient := []
        pageIds := []
        branchIds := []
        cronExpression := "0 0 0 * * *"
        created := now1
        updated := now1 }) := by
  refine ⟨rfl, rfl, rfl, rfl, rfl, rfl, rfl, rfl, rfl, rfl, ?_, rfl⟩
  refine ⟨rfl, rfl, rfl, rfl, rfl, rfl, ?_⟩
  intro h
  simp [enableOrUpdateTask, disableTask]
  exact h.symm

/-- C7 witness. -/
theorem disableTask_preserves_configuration_witness :
    (disableTask (some doc0) "report-task" "T1" 10).enable = false ∧
    (enableOrUpdateTask gen0 (some (disableTask (some doc0) "report-task" "T1" 10))
      "report-task"
      { frequency := (disableTask (some doc0) "report-task" "T1" 10).frequency
        time := (disableTask (some doc0) "report-task" "T1" 10).time
        recipient := (disableTask (some doc0) "report-task" "T1" 10).recipient
        pageIds := (disableTask (some doc0) "report-task" "T1" 10).pageIds
        branchIds := some (disableTask (some doc0) "report-task" "T1" 10).branchIds }
      "T1" 20).cronExpression = doc0.cronExpression := by
  obtain ⟨he, _, _, _, _, _, _, _, _, _, hrt, _⟩ :=
    disableTask_preserves_configuration gen0 doc0 "report-task" "T1" 10 20
  obtain ⟨_, _, _, _, _, _, hcron⟩ := hrt
  exact ⟨he, hcron rfl⟩
